import Mathlib

/-!
Shallow embedding of the viralengine bootstrap scripts.

Files modelled:
- viral_video_agency.py / viral_video_agency_nodejs.py: the tool classes
  (TaskMasterTool, FileOperationTool, NodeExecutorTool) and the declarative
  Agent / Agency charts;
- run_agency.py / start_building.py / start_building_nodejs.py: the
  __main__ API-key checks run at process startup.

External effects (the filesystem, subprocess execution) are made explicit:
the filesystem is a map from paths to contents, and process execution is a
parameter mapping a command (and working directory, where the source passes
one) to an outcome.
-/

namespace ViralEngine

/-- An environment, as read by os.getenv: a partial map from variable names
to values. -/
def Env : Type := String → Option String

/-- Python truthiness of os.getenv(key): False when the variable is unset
(None) or set to the empty string. -/
def getenvTruthy (env : Env) (key : String) : Bool :=
  match env key with
  | none => false
  | some v => v ≠ ""

/-- The required_keys list of run_agency.py line 83. -/
def requiredKeys : List String :=
  ["OPENAI_API_KEY", "ELEVENLABS_API_KEY", "PEXELS_API_KEY", "PIXABAY_API_KEY"]

/-- Outcome of a __main__ startup key check: the messages printed by the
check and whether execution continues past it (sys.exit sets starts to
false). -/
structure StartupOutcome where
  messages : List String
  starts : Bool
deriving DecidableEq, Repr

/-- The __main__ block of run_agency.py lines 82-90: collects the missing
required keys, prints one warning if any are missing, and always proceeds
to main(). -/
def runAgencyStartup (env : Env) : StartupOutcome :=
  let missing := requiredKeys.filter (fun k => !(getenvTruthy env k))
  { messages :=
      if missing.isEmpty then []
      else ["⚠️ Warning: Missing API keys: " ++ String.intercalate ", " missing],
    starts := true }

/-- The __main__ block of start_building.py lines 262-266 (identically
start_building_nodejs.py lines 266-269): if OPENAI_API_KEY is unset or
empty, print an error and sys.exit(1); otherwise continue to main(). -/
def startBuildingStartup (env : Env) : StartupOutcome :=
  if getenvTruthy env "OPENAI_API_KEY" then
    { messages := [], starts := true }
  else
    { messages := ["❌ Error: OPENAI_API_KEY not found in environment variables."],
      starts := false }

/-- A value returned by a Python method: a string, or the implicit None
returned when control falls off the end of the function body. -/
inductive PyValue where
  | str (s : String)
  | pyNone
deriving DecidableEq, Repr

/-- The filesystem, as a flat map from full paths to file contents. -/
def FS : Type := String → Option String

/-- Writing content c at path p (open(p, mode) followed by f.write(c)). -/
def FS.update (fs : FS) (p : String) (c : String) : FS :=
  fun q => if q = p then some c else fs q

/-- The hard-coded project root used by every tool in
viral_video_agency.py and viral_video_agency_nodejs.py. -/
def projectRoot : String := "C:\\Users\\Stuart\\Desktop\\Projects\\viralengine"

/-- os.path.join(projectRoot, p) as performed on the Windows host the
source targets. -/
def fullPath (p : String) : String := projectRoot ++ "\\" ++ p

/-- The message of the TypeError raised by f.write(None). -/
def typeErrorMsg : String := "write() argument must be str, not None"

/-- The message of the FileNotFoundError raised by open(p) on a missing
file. -/
def fileNotFoundMsg (p : String) : String :=
  "[Errno 2] No such file or directory: " ++ p

/-- FileOperationTool.run of viral_video_agency.py lines 55-80 (identically
TypeScriptFileTool.run of viral_video_agency_nodejs.py lines 49-74).
Returns the tool result and the filesystem after the call.
Branch by branch:
- create: makedirs then open(w) writes content or the empty string, returns
  a confirmation;
- read: open(r).read() returns the contents, or the caught
  FileNotFoundError as an error string;
- write: open(w) first truncates the file, then f.write(content) writes it
  (raising TypeError, caught, when content is None) and returns a
  confirmation;
- append: open(a) creates the file when absent, then f.write(content)
  appends (same TypeError when content is None) and returns a confirmation;
- any other operation falls off the end of the try block and returns
  Python None. -/
def fileOpRun (fs : FS) (operation file_path : String) (content : Option String) :
    PyValue × FS :=
  let fp := fullPath file_path
  if operation = "create" then
    (PyValue.str ("Created file: " ++ file_path), fs.update fp (content.getD ""))
  else if operation = "read" then
    match fs fp with
    | some c => (PyValue.str c, fs)
    | none => (PyValue.str ("Error: " ++ fileNotFoundMsg fp), fs)
  else if operation = "write" then
    match content with
    | some c => (PyValue.str ("Updated file: " ++ file_path), fs.update fp c)
    | none => (PyValue.str ("Error: " ++ typeErrorMsg), fs.update fp "")
  else if operation = "append" then
    match content with
    | some c =>
      (PyValue.str ("Appended to file: " ++ file_path),
       fs.update fp ((fs fp).getD "" ++ c))
    | none =>
      (PyValue.str ("Error: " ++ typeErrorMsg), fs.update fp ((fs fp).getD ""))
  else
    (PyValue.pyNone, fs)

/-- Result of a subprocess.run call that completed: return code, captured
standard output and captured standard error. -/
structure ProcResult where
  returncode : Int
  stdout : String
  stderr : String
deriving DecidableEq, Repr

/-- Outcome of attempting a subprocess.run call: it completed with a result,
or it raised an exception carrying a message. -/
inductive ProcOutcome where
  | completed (r : ProcResult)
  | raised (msg : String)
deriving DecidableEq, Repr

/-- The shared try block of TaskMasterTool.run (viral_video_agency.py lines
41-45 and viral_video_agency_nodejs.py lines 155-159): run the command,
return stdout when the return code is 0, the stderr prefixed with an error
marker when it is nonzero, and a caught-exception message when
subprocess.run raises. -/
def runCmd (proc : String → ProcOutcome) (cmd : String) : String :=
  match proc cmd with
  | ProcOutcome.completed r =>
    if r.returncode = 0 then r.stdout else "Error: " ++ r.stderr
  | ProcOutcome.raised msg => "Error executing command: " ++ msg

/-- Rendering of an Optional[str] field inside a Python f-string: None
renders as the text None. -/
def optStr : Option String → String
  | none => "None"
  | some s => s

/-- The command built by the if/elif chain of TaskMasterTool.run
(viral_video_agency.py lines 32-39): none models the early return for an
unknown action. -/
def taskMasterCmd (task_id action : String) (status notes : Option String) :
    Option String :=
  if action = "show" then
    some ("task-master show " ++ task_id)
  else if action = "set-status" then
    some ("task-master set-status --id=" ++ task_id ++ " --status=" ++ optStr status)
  else if action = "update-subtask" then
    some ("task-master update-subtask --id=" ++ task_id ++ " --prompt=\"" ++
          optStr notes ++ "\"")
  else
    none

/-- TaskMasterTool.run of viral_video_agency.py lines 29-45 (identically
viral_video_agency_nodejs.py lines 145-159). -/
def taskMasterRun (proc : String → ProcOutcome) (task_id action : String)
    (status notes : Option String) : String :=
  match taskMasterCmd task_id action status notes with
  | none => "Unknown action: " ++ action
  | some cmd => runCmd proc cmd

/-- NodeExecutorTool.run of viral_video_agency_nodejs.py lines 28-39:
subprocess.run of the command with cwd = os.path.join(projectRoot,
working_dir); stdout on return code 0, stderr prefixed with an error marker
otherwise, and a caught-exception message when subprocess.run raises. -/
def nodeExecutorRun (proc : String → String → ProcOutcome)
    (command working_dir : String) : String :=
  match proc command (fullPath working_dir) with
  | ProcOutcome.completed r =>
    if r.returncode = 0 then r.stdout else "Error: " ++ r.stderr
  | ProcOutcome.raised msg => "Error executing command: " ++ msg

/-- One Agent(...) declaration: its name, its temperature and the names of
the tool classes passed in its tools list. -/
structure AgentDecl where
  name : String
  temperature : ℚ
  tools : List String
deriving DecidableEq, Repr

/-- One entry of the chart list passed to Agency(...): a lone agent (an
entry point) or a pair [a, b] declaring that a can dispatch to b. -/
inductive ChartEntry where
  | solo (a : AgentDecl)
  | pair (a b : AgentDecl)
deriving DecidableEq, Repr

/-- The name of the first lone agent of a chart: the entry-point (root)
role. -/
def chartRoot : List ChartEntry → Option String
  | [] => none
  | ChartEntry.solo a :: _ => some a.name
  | ChartEntry.pair _ _ :: rest => chartRoot rest

/-- The Dispatch Edges of a chart: the [source, destination] pairs, by
name, in declaration order. -/
def chartEdges : List ChartEntry → List (String × String)
  | [] => []
  | ChartEntry.solo _ :: rest => chartEdges rest
  | ChartEntry.pair a b :: rest => (a.name, b.name) :: chartEdges rest

/-- Reachability along edges within a bounded number of steps, computed by
expanding one outgoing edge per unit of fuel. -/
def reachN (edges : List (String × String)) : Nat → String → String → Bool
  | 0, a, b => a = b
  | n + 1, a, b =>
    a = b || (edges.filter (fun e => e.1 = a)).any (fun e => reachN edges n e.2 b)

/-- A roster has no orphan when every role other than the root has at least
one inbound Dispatch Edge and is reachable from the root along the edges
(a path never needs more steps than there are edges). -/
def noOrphan (root : String) (roster : List AgentDecl)
    (edges : List (String × String)) : Bool :=
  roster.all fun a =>
    a.name = root ||
    ((edges.any fun e => e.2 = a.name) && reachN edges edges.length root a.name)

/-- A temperature lies in the closed interval from 0 to 1. -/
def tempOK (t : ℚ) : Bool := decide (0 ≤ t) && decide (t ≤ 1)

namespace Py

/-- Agent ProjectManager of viral_video_agency.py lines 107-123. -/
def project_manager : AgentDecl :=
  ⟨"ProjectManager", 0.2, ["TaskMasterTool", "FileOperationTool"]⟩

/-- Agent InfrastructureDev of viral_video_agency.py lines 126-141. -/
def infrastructure_dev : AgentDecl :=
  ⟨"InfrastructureDev", 0.1, ["FileOperationTool", "PythonExecutorTool", "TaskMasterTool"]⟩

/-- Agent TemplateDev of viral_video_agency.py lines 144-157. -/
def template_dev : AgentDecl :=
  ⟨"TemplateDev", 0.2, ["FileOperationTool", "PythonExecutorTool", "TaskMasterTool"]⟩

/-- Agent ScriptGenDev of viral_video_agency.py lines 160-174. -/
def script_gen_dev : AgentDecl :=
  ⟨"ScriptGenDev", 0.3, ["FileOperationTool", "PythonExecutorTool", "TaskMasterTool"]⟩

/-- Agent MediaDev of viral_video_agency.py lines 177-195. -/
def media_dev : AgentDecl :=
  ⟨"MediaDev", 0.2, ["FileOperationTool", "PythonExecutorTool", "TaskMasterTool"]⟩

/-- Agent VideoAssemblyDev of viral_video_agency.py lines 198-217. -/
def video_assembly_dev : AgentDecl :=
  ⟨"VideoAssemblyDev", 0.2, ["FileOperationTool", "PythonExecutorTool", "TaskMasterTool"]⟩

/-- Agent IntegrationDev of viral_video_agency.py lines 220-235. -/
def integration_dev : AgentDecl :=
  ⟨"IntegrationDev", 0.2, ["FileOperationTool", "PythonExecutorTool", "TaskMasterTool"]⟩

/-- Agent TestingAgent of viral_video_agency.py lines 238-252. -/
def testing_agent : AgentDecl :=
  ⟨"TestingAgent", 0.1, ["FileOperationTool", "PythonExecutorTool", "TaskMasterTool"]⟩

/-- The eight Agent declarations of viral_video_agency.py, in source
order. -/
def roster : List AgentDecl :=
  [project_manager, infrastructure_dev, template_dev, script_gen_dev,
   media_dev, video_assembly_dev, integration_dev, testing_agent]

/-- The chart list of the Agency(...) call, viral_video_agency.py lines
260-277. -/
def chart : List ChartEntry :=
  [ChartEntry.solo project_manager,
   ChartEntry.pair project_manager infrastructure_dev,
   ChartEntry.pair project_manager template_dev,
   ChartEntry.pair project_manager script_gen_dev,
   ChartEntry.pair project_manager media_dev,
   ChartEntry.pair project_manager video_assembly_dev,
   ChartEntry.pair project_manager integration_dev,
   ChartEntry.pair project_manager testing_agent,
   ChartEntry.pair infrastructure_dev testing_agent,
   ChartEntry.pair template_dev script_gen_dev,
   ChartEntry.pair script_gen_dev video_assembly_dev,
   ChartEntry.pair media_dev video_assembly_dev,
   ChartEntry.pair video_assembly_dev integration_dev,
   ChartEntry.pair integration_dev testing_agent]

end Py

namespace Node

/-- Agent ProjectManager of viral_video_agency_nodejs.py lines 166-188. -/
def project_manager : AgentDecl :=
  ⟨"ProjectManager", 0.2, ["TaskMasterTool", "NodeExecutorTool"]⟩

/-- Agent NodeInfrastructureDev of viral_video_agency_nodejs.py lines
191-214. -/
def infrastructure_dev : AgentDecl :=
  ⟨"NodeInfrastructureDev", 0.1,
   ["TypeScriptFileTool", "PackageJsonTool", "NodeExecutorTool", "TaskMasterTool"]⟩

/-- Agent NodeTemplateDev of viral_video_agency_nodejs.py lines 217-246. -/
def template_dev : AgentDecl :=
  ⟨"NodeTemplateDev", 0.2, ["TypeScriptFileTool", "NodeExecutorTool", "TaskMasterTool"]⟩

/-- Agent NodeScriptGenDev of viral_video_agency_nodejs.py lines 249-279. -/
def script_gen_dev : AgentDecl :=
  ⟨"NodeScriptGenDev", 0.3, ["TypeScriptFileTool", "NodeExecutorTool", "TaskMasterTool"]⟩

/-- Agent NodeMediaDev of viral_video_agency_nodejs.py lines 282-305. -/
def media_dev : AgentDecl :=
  ⟨"NodeMediaDev", 0.2, ["TypeScriptFileTool", "NodeExecutorTool", "TaskMasterTool"]⟩

/-- Agent NodeVideoAssemblyDev of viral_video_agency_nodejs.py lines
308-340. -/
def video_assembly_dev : AgentDecl :=
  ⟨"NodeVideoAssemblyDev", 0.2, ["TypeScriptFileTool", "NodeExecutorTool", "TaskMasterTool"]⟩

/-- Agent NodeCLIDev of viral_video_agency_nodejs.py lines 343-362. -/
def cli_dev : AgentDecl :=
  ⟨"NodeCLIDev", 0.2,
   ["TypeScriptFileTool", "PackageJsonTool", "NodeExecutorTool", "TaskMasterTool"]⟩

/-- Agent NodeTestingAgent of viral_video_agency_nodejs.py lines 365-379. -/
def testing_agent : AgentDecl :=
  ⟨"NodeTestingAgent", 0.1, ["TypeScriptFileTool", "NodeExecutorTool", "TaskMasterTool"]⟩

/-- The eight Agent declarations of viral_video_agency_nodejs.py, in
source order. -/
def roster : List AgentDecl :=
  [project_manager, infrastructure_dev, template_dev, script_gen_dev,
   media_dev, video_assembly_dev, cli_dev, testing_agent]

/-- The chart list of the Agency(...) call, viral_video_agency_nodejs.py
lines 386-403. -/
def chart : List ChartEntry :=
  [ChartEntry.solo project_manager,
   ChartEntry.pair project_manager infrastructure_dev,
   ChartEntry.pair project_manager template_dev,
   ChartEntry.pair project_manager script_gen_dev,
   ChartEntry.pair project_manager media_dev,
   ChartEntry.pair project_manager video_assembly_dev,
   ChartEntry.pair project_manager cli_dev,
   ChartEntry.pair project_manager testing_agent,
   ChartEntry.pair infrastructure_dev testing_agent,
   ChartEntry.pair template_dev script_gen_dev,
   ChartEntry.pair script_gen_dev video_assembly_dev,
   ChartEntry.pair media_dev video_assembly_dev,
   ChartEntry.pair video_assembly_dev cli_dev,
   ChartEntry.pair cli_dev testing_agent]

end Node

/-- The role renaming between the Python-target and Node.js-target
rosters. -/
def rename : String → String
  | "InfrastructureDev" => "NodeInfrastructureDev"
  | "TemplateDev" => "NodeTemplateDev"
  | "ScriptGenDev" => "NodeScriptGenDev"
  | "MediaDev" => "NodeMediaDev"
  | "VideoAssemblyDev" => "NodeVideoAssemblyDev"
  | "IntegrationDev" => "NodeCLIDev"
  | "TestingAgent" => "NodeTestingAgent"
  | s => s

/-- An environment in which only the model API key is missing: the other
three required secrets are present. -/
def envMissingOpenAI : Env := fun k =>
  if k = "ELEVENLABS_API_KEY" then some "tts-key"
  else if k = "PEXELS_API_KEY" then some "pexels-key"
  else if k = "PIXABAY_API_KEY" then some "pixabay-key"
  else none

/-- An empty filesystem. -/
def emptyFS : FS := fun _ => none

end ViralEngine

namespace ViralEngine

/-- C1 counterexample: with the model API key missing (and the other three
secrets present), the start_building.py key check prints an error and calls
sys.exit(1) — the program refuses to run, contradicting the claim that a
missing secret from the set never prevents startup. -/
theorem start_building_exits_on_missing_model_key :
    (startBuildingStartup envMissingOpenAI).starts = false ∧
    "OPENAI_API_KEY" ∈ requiredKeys ∧
    getenvTruthy envMissingOpenAI "OPENAI_API_KEY" = false := by
  decide

/-- C1 (amended): run_agency.py always proceeds past its key check,
surfacing exactly one warning message when any of the four secrets is
missing; start_building.py instead proceeds if and only if the model API
key is present — a missing model API key there terminates the process. -/
theorem startup_key_check_amended (env : Env) :
    (runAgencyStartup env).starts = true ∧
    ((∃ k ∈ requiredKeys, getenvTruthy env k = false) →
      (runAgencyStartup env).messages.length = 1) ∧
    ((startBuildingStartup env).starts = true ↔
      getenvTruthy env "OPENAI_API_KEY" = true) := by
  refine ⟨rfl, ?_, ?_⟩
  · rintro ⟨k, hk, hmiss⟩
    have hmem : k ∈ requiredKeys.filter (fun k => !(getenvTruthy env k)) :=
      List.mem_filter.2 ⟨hk, by simp [hmiss]⟩
    unfold runAgencyStartup
    have hne : (requiredKeys.filter (fun k => !(getenvTruthy env k))).isEmpty = false := by
      cases hemp : (requiredKeys.filter (fun k => !(getenvTruthy env k))).isEmpty
      · rfl
      · rw [List.isEmpty_iff] at hemp
        rw [hemp] at hmem
        cases hmem
    simp [hne]
  · unfold startBuildingStartup
    cases h : getenvTruthy env "OPENAI_API_KEY" <;> simp [h]

/-- C1 witness: in the environment missing only the model API key,
run_agency.py still starts and prints exactly one warning. -/
theorem startup_key_check_amended_witness :
    (runAgencyStartup envMissingOpenAI).starts = true ∧
    (runAgencyStartup envMissingOpenAI).messages.length = 1 :=
  ⟨(startup_key_check_amended envMissingOpenAI).1,
   (startup_key_check_amended envMissingOpenAI).2.1
     ⟨"OPENAI_API_KEY", by decide, rfl⟩⟩

/-- C2 counterexample: invoking the file Capability with the operation
delete (outside the four handled operations) falls off the end of the
method body and returns the non-text value None, contradicting the claim
that every invocation returns a text result. -/
theorem file_tool_unknown_op_returns_none :
    (fileOpRun emptyFS "delete" "x.txt" none).1 = PyValue.pyNone := by
  decide

/-- C2 (amended): every file Capability invocation whose operation is one
of create, read, write or append returns a text result — a confirmation, a
payload, or a descriptive error string — and never raises; an operation
outside that set returns Python None. (The task-tracker Capability returns
a text result for every action; see the C8 theorem.) -/
theorem file_tool_known_ops_return_text (fs : FS) (op p : String)
    (c : Option String) (h : op ∈ ["create", "read", "write", "append"]) :
    ∃ s, (fileOpRun fs op p c).1 = PyValue.str s := by
  simp only [List.mem_cons, List.mem_singleton] at h
  rcases h with rfl | rfl | rfl | rfl | h
  · exact ⟨_, rfl⟩
  · unfold fileOpRun
    simp only [reduceIte]
    cases fs (fullPath p) <;> exact ⟨_, rfl⟩
  · unfold fileOpRun
    simp only [reduceIte]
    cases c <;> exact ⟨_, rfl⟩
  · unfold fileOpRun
    simp only [reduceIte]
    cases c <;> exact ⟨_, rfl⟩
  · cases h

/-- C2 witness: a read on the empty filesystem returns a text result (the
caught FileNotFoundError rendered as an error string). -/
theorem file_tool_known_ops_return_text_witness :
    ∃ s, (fileOpRun emptyFS "read" "x.txt" none).1 = PyValue.str s :=
  file_tool_known_ops_return_text emptyFS "read" "x.txt" none (by decide)

/-- C3: invoking the file Capability with operation create on path p and
content c, then invoking it with operation read on p, returns exactly c. -/
theorem create_then_read_round_trip (fs : FS) (p c : String) :
    (fileOpRun (fileOpRun fs "create" p (some c)).2 "read" p none).1 =
      PyValue.str c := by
  simp [fileOpRun, FS.update]

/-- C4: invoking the file Capability with operation write on (p, c) twice
in succession leaves the same file content as invoking it once, and the
second invocation returns the success confirmation — not an error
string. -/
theorem write_twice_idempotent_and_success (fs : FS) (p c : String) :
    (fileOpRun (fileOpRun fs "write" p (some c)).2 "write" p (some c)).2 =
      (fileOpRun fs "write" p (some c)).2 ∧
    (fileOpRun (fileOpRun fs "write" p (some c)).2 "write" p (some c)).1 =
      PyValue.str ("Updated file: " ++ p) ∧
    ∀ e, (fileOpRun (fileOpRun fs "write" p (some c)).2 "write" p (some c)).1 ≠
      PyValue.str ("Error: " ++ e) := by
  refine ⟨?_, rfl, ?_⟩
  · funext q
    by_cases h : q = fullPath p <;> simp [fileOpRun, FS.update, h]
  · intro e h
    rw [show (fileOpRun (fileOpRun fs "write" p (some c)).2 "write" p (some c)).1 =
        PyValue.str ("Updated file: " ++ p) from rfl] at h
    injection h with h
    have h2 := congrArg String.data h
    simp [String.data_append] at h2

/-- C4 witness: the double write on the empty filesystem at a concrete
path returns the success confirmation. -/
theorem write_twice_idempotent_and_success_witness :
    (fileOpRun (fileOpRun emptyFS "write" "a.txt" (some "hi")).2 "write" "a.txt"
      (some "hi")).1 = PyValue.str ("Updated file: " ++ "a.txt") :=
  (write_twice_idempotent_and_success emptyFS "a.txt" "hi").2.1

/-- C5: for every command string, the shell Capability returns the captured
standard output when the command exits with code 0 and the captured
standard error prefixed with the error marker when it exits nonzero; when
subprocess.run itself raises, the caught exception is likewise returned as
a text result, never propagated. -/
theorem node_executor_output_contract (proc : String → String → ProcOutcome)
    (command working_dir : String) :
    (∀ r, proc command (fullPath working_dir) = ProcOutcome.completed r →
      ((r.returncode = 0 → nodeExecutorRun proc command working_dir = r.stdout) ∧
       (r.returncode ≠ 0 →
         nodeExecutorRun proc command working_dir = "Error: " ++ r.stderr))) ∧
    (∀ m, proc command (fullPath working_dir) = ProcOutcome.raised m →
      nodeExecutorRun proc command working_dir = "Error executing command: " ++ m) := by
  constructor
  · intro r hr
    constructor
    · intro h0
      unfold nodeExecutorRun
      rw [hr]
      simp [h0]
    · intro hn
      unfold nodeExecutorRun
      rw [hr]
      simp [hn]
  · intro m hm
    unfold nodeExecutorRun
    rw [hm]

/-- C5 witness: a command that exits with code 1 yields the error-marked
standard error as a text result. -/
theorem node_executor_output_contract_witness :
    nodeExecutorRun (fun _ _ => ProcOutcome.completed ⟨1, "", "boom"⟩)
      "exit 1" "." = "Error: " ++ "boom" :=
  ((node_executor_output_contract (fun _ _ => ProcOutcome.completed ⟨1, "", "boom"⟩)
      "exit 1" ".").1 ⟨1, "", "boom"⟩ rfl).2 (by decide)

/-- C6: in both agency charts, every declared role other than the root
ProjectManager has at least one inbound Dispatch Edge and is reachable from
the root along the Dispatch Edges. -/
theorem rosters_have_no_orphan_roles :
    noOrphan "ProjectManager" Py.roster (chartEdges Py.chart) = true ∧
    noOrphan "ProjectManager" Node.roster (chartEdges Node.chart) = true := by
  decide

/-- C7: within each of the two rosters, the eight declared role names are
pairwise distinct. -/
theorem roster_names_unique :
    (Py.roster.map AgentDecl.name).Nodup ∧
    (Node.roster.map AgentDecl.name).Nodup := by
  decide

/-- C8 counterexample: the action update-note named by the claim is not in
the set the code accepts — the tracker Capability answers it with the
unknown-action error text instead of a tracker response, even when the
underlying command runner would have succeeded. -/
theorem task_master_rejects_update_note :
    taskMasterRun (fun _ => ProcOutcome.completed ⟨0, "ok", ""⟩)
      "11.1" "update-note" none (some "n") = "Unknown action: update-note" := by
  decide

/-- C8 (amended): the task-tracker Capability accepts exactly the actions
show, set-status and update-subtask; for an action in this set it builds
the tracker command and returns the command runner response (tracker
output or error text), and for any action outside this set it returns an
unknown-action error text rather than raising. -/
theorem task_master_actions_contract (proc : String → ProcOutcome)
    (task_id action : String) (status notes : Option String) :
    (action ∈ ["show", "set-status", "update-subtask"] →
      ∃ cmd, taskMasterCmd task_id action status notes = some cmd ∧
        taskMasterRun proc task_id action status notes = runCmd proc cmd) ∧
    (action ∉ ["show", "set-status", "update-subtask"] →
      taskMasterRun proc task_id action status notes =
        "Unknown action: " ++ action) := by
  constructor
  · intro h
    simp only [List.mem_cons, List.mem_singleton] at h
    rcases h with rfl | rfl | rfl | h
    · exact ⟨_, rfl, rfl⟩
    · exact ⟨_, rfl, rfl⟩
    · exact ⟨_, rfl, rfl⟩
    · cases h
  · intro h
    simp only [List.mem_cons, List.mem_singleton, not_or] at h
    obtain ⟨h1, h2, h3, _⟩ := h
    unfold taskMasterRun taskMasterCmd
    simp [h1, h2, h3]

/-- C8 witness: the show action on a successful tracker run returns the
tracker response via the command runner. -/
theorem task_master_actions_contract_witness :
    ∃ cmd, taskMasterCmd "11.1" "show" none none = some cmd ∧
      taskMasterRun (fun _ => ProcOutcome.completed ⟨0, "ok", ""⟩)
        "11.1" "show" none none =
        runCmd (fun _ => ProcOutcome.completed ⟨0, "ok", ""⟩) cmd :=
  (task_master_actions_contract (fun _ => ProcOutcome.completed ⟨0, "ok", ""⟩)
    "11.1" "show" none none).1 (by decide)

/-- C9: every role declared in either roster has a temperature lying in
the closed interval from 0 to 1. -/
theorem roster_temperatures_in_range :
    ∀ a ∈ Py.roster ++ Node.roster, 0 ≤ a.temperature ∧ a.temperature ≤ 1 := by
  intro a ha
  fin_cases ha <;> constructor <;> norm_num [Py.project_manager, Py.infrastructure_dev,
    Py.template_dev, Py.script_gen_dev, Py.media_dev, Py.video_assembly_dev,
    Py.integration_dev, Py.testing_agent, Node.project_manager, Node.infrastructure_dev,
    Node.template_dev, Node.script_gen_dev, Node.media_dev, Node.video_assembly_dev,
    Node.cli_dev, Node.testing_agent]

/-- C9 witness: the ProjectManager declaration of the Python-target roster
has its temperature in range. -/
theorem roster_temperatures_in_range_witness :
    0 ≤ Py.project_manager.temperature ∧ Py.project_manager.temperature ≤ 1 :=
  roster_temperatures_in_range Py.project_manager
    (by unfold Py.roster
        exact List.mem_append_left _ (List.mem_cons_self _ _))

/-- C10: under the role renaming, the two charts declare the same root and
the same Dispatch Edge list (hence the same edge set), with seven
root-to-worker edges and six inter-worker edges in each. -/
theorem py_node_topology_agree :
    (chartRoot Py.chart).map rename = chartRoot Node.chart ∧
    (chartEdges Py.chart).map (fun e => (rename e.1, rename e.2)) =
      chartEdges Node.chart ∧
    ((chartEdges Py.chart).filter (fun e => e.1 = "ProjectManager")).length = 7 ∧
    ((chartEdges Node.chart).filter (fun e => e.1 = "ProjectManager")).length = 7 ∧
    ((chartEdges Py.chart).filter
      (fun e => !(e.1 = "ProjectManager" : Bool))).length = 6 ∧
    ((chartEdges Node.chart).filter
      (fun e => !(e.1 = "ProjectManager" : Bool))).length = 6 := by
  decide

end ViralEngine
